import Mathlib

/-!
Verification of the wait/poll logic of the openshift-python-wrapper sources
(ocp_resources/machine_set.py and resources/virtual_machine.py).

The TimeoutSampler helper itself lives in resources/utils and
ocp_resources/utils, which are not among the sources at hand; it is modelled
from the specification (section 4.1): each iteration invokes the probe, an
exception whose kind is declared retryable is swallowed and the loop
continues, any other exception propagates at once, a produced value is
yielded to the consumer, and when the deadline elapses before the consumer
stops the loop the sampler raises TimeoutExpiredError.  Wall-clock time is
abstracted to an iteration budget: fuel is the number of probe invocations
the timeout admits (a positive timeout means fuel is at least 1), and the
second Nat argument of each loop is the absolute index of the current
iteration, so that the probed cluster state may depend on when it is read.
-/

namespace OpenshiftWrapper

/-- Python exception kinds appearing in the two source files: ProtocolError
(urllib3), the kind declared retryable by the VirtualMachine and
VirtualMachineInstance waits; KeyError, raised by a dict lookup on a missing
key; and a stand-in for every other exception kind. -/
inductive PyExc where
  | protocolError
  | keyError
  | otherExc (n : Nat)
deriving DecidableEq, Repr

/-- Python values that the "ready" entry of a VirtualMachine status dict can
hold, together with None; wait_for_status compares such a value with its
status argument (True for a running VM, None for a stopped VM). -/
inductive PyVal where
  | vNone
  | vBool (b : Bool)
  | vStr (s : String)
  | vInt (n : Int)
deriving DecidableEq, Repr

/-- Outcome of one probe invocation: a value, or an exception of kind e. -/
inductive ProbeOutcome (T : Type) (E : Type) where
  | ok (v : T)
  | err (e : E)
deriving DecidableEq, Repr

/-- Final outcome of a fused sampler/consumer loop: the consumer returned at
the first value accepted by its inline check, the sampler raised
TimeoutExpiredError at the deadline, or an exception propagated. -/
inductive SamplerOutcome (T : Type) (E : Type) where
  | stopped (v : T)
  | timedOut
  | raised (e : E)
deriving DecidableEq, Repr

/-- Trace of one sampler run: the final outcome, the values yielded to the
consumer in order, and the number of probe invocations made. -/
structure SamplerRun (T : Type) (E : Type) where
  outcome : SamplerOutcome T E
  yielded : List T
  probes : Nat
deriving DecidableEq, Repr

/-- Modelled from the spec: TimeoutSampler (resources/utils and
ocp_resources/utils, absent from the sources) fused with the for-loop of a
wait_for_X consumer.  Per iteration the probe runs; an exception satisfying
retryable is absorbed and the loop continues, any other exception propagates
immediately with no value yielded; a produced value is yielded to the
consumer, which stops at the first value its inline predicate accepts; when
fuel runs out first, the sampler raises TimeoutExpiredError. -/
def runSampler {T E : Type} (retryable : E → Bool) (probe : Nat → ProbeOutcome T E) (pred : Nat → T → Bool) : Nat → Nat → SamplerRun T E
  | 0, _ => { outcome := SamplerOutcome.timedOut, yielded := [], probes := 0 }
  | fuel + 1, i =>
    match probe i with
    | ProbeOutcome.err e =>
      if retryable e then
        let r := runSampler retryable probe pred fuel (i + 1)
        { outcome := r.outcome, yielded := r.yielded, probes := r.probes + 1 }
      else { outcome := SamplerOutcome.raised e, yielded := [], probes := 1 }
    | ProbeOutcome.ok v =>
      if pred i v then { outcome := SamplerOutcome.stopped v, yielded := [v], probes := 1 }
      else
        let r := runSampler retryable probe pred fuel (i + 1)
        { outcome := r.outcome, yielded := v :: r.yielded, probes := r.probes + 1 }

/-- Iteration m of a sampler run neither stops the consumer nor aborts the
loop: a probe exception there is retryable and a probe value there is
rejected by the consumer check. -/
def stepContinues {T E : Type} (retryable : E → Bool) (probe : Nat → ProbeOutcome T E) (pred : Nat → T → Bool) (m : Nat) : Prop :=
  (∀ e, probe m = ProbeOutcome.err e → retryable e = true) ∧
  (∀ v, probe m = ProbeOutcome.ok v → pred m v = false)

/-- Python truthiness of an optional replica count: None and 0 are falsy. -/
def optNatTruthy : Option Nat → Bool
  | none => false
  | some n => n != 0

/-- The inline check of MachineSet.wait_for_replicas on sample v at
iteration i: ready_replicas and ready_replicas == self.desired_replicas,
where self.desired_replicas is fetched fresh at that iteration. -/
def wfrPred (desired : Nat → Option Nat) (i : Nat) (v : Option Nat) : Bool :=
  optNatTruthy v && (v == desired i)

/-- The probe of MachineSet.wait_for_replicas, lambda: self.ready_replicas:
reading the cluster ready count at iteration i, or raising when errAt
injects an exception there. -/
def wfrProbe {E : Type} (errAt : Nat → Option E) (ready : Nat → Option Nat) (i : Nat) : ProbeOutcome (Option Nat) E :=
  match errAt i with
  | some e => ProbeOutcome.err e
  | none => ProbeOutcome.ok (ready i)

/-- Result of MachineSet.wait_for_replicas: ok models return True; failed
models return False together with the two replica counts interpolated into
the error log line; raised models an exception propagating out of the
method. -/
inductive WFRResult (E : Type) where
  | ok
  | failed (loggedReady : Option Nat) (loggedDesired : Option Nat)
  | raised (e : E)
deriving DecidableEq, Repr

/-- MachineSet.wait_for_replicas (ocp_resources/machine_set.py): samples
self.ready_replicas with a TimeoutSampler that declares no retryable
exception kinds, returns True at the first truthy sample equal to the
freshly fetched desired count, and on TimeoutExpiredError logs
self.ready_replicas and self.desired_replicas — fetched again after the
loop, modelled as the cluster state at index fuel, with these two log-line
fetches modelled as succeeding — and returns False.  The cluster state at
iteration i is the pair (ready i, desired i). -/
def wait_for_replicas {E : Type} (errAt : Nat → Option E) (ready desired : Nat → Option Nat) (fuel : Nat) : WFRResult E :=
  match (runSampler (fun _ => false) (wfrProbe errAt ready) (wfrPred desired) fuel 0).outcome with
  | SamplerOutcome.stopped _ => WFRResult.ok
  | SamplerOutcome.timedOut => WFRResult.failed (ready fuel) (desired fuel)
  | SamplerOutcome.raised e => WFRResult.raised e

/-- Truthiness of self.instance.status together with the entry the dict
holds at key "ready": present is false when the status is falsy (None or
empty), and readyVal is none when a truthy status dict lacks the key. -/
structure VMStatus where
  present : Bool
  readyVal : Option PyVal
deriving DecidableEq, Repr

/-- VirtualMachine.ready: self.instance.status["ready"] if
self.instance.status else None.  A falsy status yields None; a truthy
status dict lacking the "ready" key makes the lookup raise KeyError. -/
def VirtualMachine.ready (st : VMStatus) : Except PyExc PyVal :=
  if st.present then
    match st.readyVal with
    | some v => Except.ok v
    | none => Except.error PyExc.keyError
  else Except.ok PyVal.vNone

/-- Outcome of VirtualMachine.wait_for_status: a normal return at iteration
i, the TimeoutExpiredError of the sampler, or a propagated exception. -/
inductive WaitOutcome where
  | returned (i : Nat)
  | timedOut
  | raised (e : PyExc)
deriving DecidableEq, Repr

/-- VirtualMachine.wait_for_status (resources/virtual_machine.py): samples
self.api().get(...) with exceptions=ProtocolError declared retryable; for
each successful sample whose items list is nonempty it compares a fresh
self.ready() against the status argument and returns at the first match;
the sampler (modelled from the spec, see runSampler) raises
TimeoutExpiredError when the deadline elapses first.  hasItems i is the
truthiness of sample.items at iteration i, vmst i the VM status that
ready() reads there, and errAt i an exception injected into the probe. -/
def VirtualMachine.wait_for_status (status : PyVal) (errAt : Nat → Option PyExc) (hasItems : Nat → Bool) (vmst : Nat → VMStatus) : Nat → Nat → WaitOutcome
  | 0, _ => WaitOutcome.timedOut
  | fuel + 1, i =>
    match errAt i with
    | some e =>
      if e = PyExc.protocolError then
        VirtualMachine.wait_for_status status errAt hasItems vmst fuel (i + 1)
      else WaitOutcome.raised e
    | none =>
      if hasItems i then
        match VirtualMachine.ready (vmst i) with
        | Except.error e => WaitOutcome.raised e
        | Except.ok v =>
          if v = status then WaitOutcome.returned i
          else VirtualMachine.wait_for_status status errAt hasItems vmst fuel (i + 1)
      else VirtualMachine.wait_for_status status errAt hasItems vmst fuel (i + 1)

/-- Iteration m of wait_for_status neither returns nor aborts: an injected
exception there is a ProtocolError, and a successful sample either has no
items or sees a fresh ready() value different from the awaited status. -/
def wfsContinues (status : PyVal) (errAt : Nat → Option PyExc) (hasItems : Nat → Bool) (vmst : Nat → VMStatus) (m : Nat) : Prop :=
  (∀ e, errAt m = some e → e = PyExc.protocolError) ∧
  (errAt m = none → hasItems m = true →
    ∃ v, VirtualMachine.ready (vmst m) = Except.ok v ∧ v ≠ status)

/-- The wait performed by VirtualMachine.stop(wait=True): wait_for_status
with status=None; the subsequent self.vmi.wait_deleted call is out of
scope. -/
def VirtualMachine.stop_wait (errAt : Nat → Option PyExc) (hasItems : Nat → Bool) (vmst : Nat → VMStatus) (fuel : Nat) : WaitOutcome :=
  VirtualMachine.wait_for_status PyVal.vNone errAt hasItems vmst fuel 0

/-- Outcome of wait_for_vmi_condition_pause_status. -/
inductive PauseOutcome where
  | returned (i : Nat)
  | timedOut
  | raised (e : PyExc)
deriving DecidableEq, Repr

/-- True exactly when the outcome is a normal return. -/
def PauseOutcome.didReturn : PauseOutcome → Bool
  | PauseOutcome.returned _ => true
  | _ => false

/-- Truthiness of sample.get("reason"): an absent key gives None, which is
falsy; a present string value is falsy exactly when it is empty. -/
def reasonTruthy : Option String → Bool
  | none => false
  | some s => s != ""

/-- The first if of the pause loop, if pause and sample["reason"] ==
"PausedByUser".  Python short-circuits, so the dict lookup only runs when
pause is truthy; on a condition lacking the "reason" key it raises
KeyError. -/
def pauseFirstCheck (pause : Bool) (reason : Option String) : Except PyExc Bool :=
  if pause then
    match reason with
    | none => Except.error PyExc.keyError
    | some r => Except.ok (r == "PausedByUser")
  else Except.ok false

/-- VirtualMachineInstance.wait_for_vmi_condition_pause_status
(resources/virtual_machine.py): samples get_vmi_active_condition with
exceptions=ProtocolError; each sampled condition dict is reduced to its
"reason" entry, reasonAt i, with none meaning the key is absent.  Per
sample the loop runs pauseFirstCheck and returns on true, then evaluates
if not (pause and sample.get("reason")) and returns when that holds,
otherwise continues to the next sample. -/
def wait_for_vmi_condition_pause_status (pause : Bool) (errAt : Nat → Option PyExc) (reasonAt : Nat → Option String) : Nat → Nat → PauseOutcome
  | 0, _ => PauseOutcome.timedOut
  | fuel + 1, i =>
    match errAt i with
    | some e =>
      if e = PyExc.protocolError then
        wait_for_vmi_condition_pause_status pause errAt reasonAt fuel (i + 1)
      else PauseOutcome.raised e
    | none =>
      match pauseFirstCheck pause (reasonAt i) with
      | Except.error e => PauseOutcome.raised e
      | Except.ok true => PauseOutcome.returned i
      | Except.ok false =>
        if !(pause && reasonTruthy (reasonAt i)) then PauseOutcome.returned i
        else wait_for_vmi_condition_pause_status pause errAt reasonAt fuel (i + 1)

/-- Result of VirtualMachineInstance.virt_launcher_pod: a pod (reduced to
its name), the explicit ResourceNotFoundError raise, or the IndexError of
the subscript pods[0] on an empty list. -/
inductive PodResult where
  | found (podName : String)
  | resourceNotFoundError
  | indexError
deriving DecidableEq, Repr

/-- VirtualMachineInstance.virt_launcher_pod: pods is the label-selected pod
list, migrationState the targetPod name when self.instance.status has a
truthy migrationState.  On the migration branch the for-loop returns the
first pod whose name equals targetPod and falls through to raise
ResourceNotFoundError when none matches; otherwise the method returns
pods[0] with no emptiness check. -/
def virt_launcher_pod (migrationState : Option String) (pods : List String) : PodResult :=
  match migrationState with
  | some target =>
    match pods.find? (fun p => target == p) with
    | some p => PodResult.found p
    | none => PodResult.resourceNotFoundError
  | none =>
    match pods with
    | [] => PodResult.indexError
    | p :: _ => PodResult.found p

/-- One entry of self.instance.status.interfaces, reduced to the two keys
interface_ip reads. -/
structure Iface where
  interfaceName : String
  ipAddress : String
deriving DecidableEq, Repr

/-- VirtualMachineInstance.interface_ip: the list comprehension collects
iface["ipAddress"] over the interfaces whose iface["interfaceName"] equals
the argument; the method returns iface_ip[0] if iface_ip else None. -/
def interface_ip (ifaces : List Iface) (interface : String) : Option String :=
  match (ifaces.filter (fun ifc => ifc.interfaceName == interface)).map Iface.ipAddress with
  | [] => none
  | x :: _ => some x

/-- The fields of a MachineSet wrapper object set by its constructor. -/
structure MachineSetObj where
  name : String
  nsName : String
  replicas : Nat
  cluster_name : String
  machine_role : String
  machine_type : String
  provider_spec : List (String × String)
deriving DecidableEq, Repr

/-- State-passing form of MachineSet.wait_for_replicas: the method creates
its TimeoutSampler locally and assigns no attribute of self, so the wrapper
object passes through unchanged next to the computed result. -/
def MachineSet.wait_for_replicas_st (ms : MachineSetObj) (errAt : Nat → Option PyExc) (ready desired : Nat → Option Nat) (fuel : Nat) : WFRResult PyExc × MachineSetObj :=
  (wait_for_replicas errAt ready desired fuel, ms)

/-- The fields of a VirtualMachine wrapper object set by its constructor. -/
structure VirtualMachineObj where
  name : String
  nsName : String
deriving DecidableEq, Repr

/-- State-passing form of VirtualMachine.wait_for_status: the method creates
its TimeoutSampler locally and assigns no attribute of self. -/
def VirtualMachine.wait_for_status_st (vm : VirtualMachineObj) (status : PyVal) (errAt : Nat → Option PyExc) (hasItems : Nat → Bool) (vmst : Nat → VMStatus) (fuel : Nat) : WaitOutcome × VirtualMachineObj :=
  (VirtualMachine.wait_for_status status errAt hasItems vmst fuel 0, vm)

/-- A sampler run all of whose iterations continue ends in the timeout
outcome. -/
theorem runSampler_timedOut_of_continues {T E : Type} (retryable : E → Bool) (probe : Nat → ProbeOutcome T E) (pred : Nat → T → Bool) :
    ∀ fuel i, (∀ j, j < fuel → stepContinues retryable probe pred (i + j)) →
      (runSampler retryable probe pred fuel i).outcome = SamplerOutcome.timedOut := by
  intro fuel
  induction fuel with
  | zero => intro i _; rfl
  | succ f ih =>
    intro i h
    have h0 := h 0 (Nat.succ_pos f)
    rw [Nat.add_zero] at h0
    have hrec : (runSampler retryable probe pred f (i + 1)).outcome = SamplerOutcome.timedOut := by
      apply ih
      intro j hj
      have hx : i + 1 + j = i + (j + 1) := by omega
      rw [hx]
      exact h (j + 1) (by omega)
    unfold runSampler
    cases hp : probe i with
    | err e =>
      have hre := h0.1 e hp
      simp [hre, hrec]
    | ok v =>
      have hpv := h0.2 v hp
      simp [hpv, hrec]

/-- A sampler run whose first k iterations continue and whose iteration
i + k produces a value the consumer accepts stops there, with exactly
k + 1 probe invocations. -/
theorem runSampler_stopped_of_first {T E : Type} (retryable : E → Bool) (probe : Nat → ProbeOutcome T E) (pred : Nat → T → Bool) :
    ∀ fuel i k v, k < fuel → (∀ j, j < k → stepContinues retryable probe pred (i + j)) →
      probe (i + k) = ProbeOutcome.ok v → pred (i + k) v = true →
      (runSampler retryable probe pred fuel i).outcome = SamplerOutcome.stopped v ∧
      (runSampler retryable probe pred fuel i).probes = k + 1 := by
  intro fuel
  induction fuel with
  | zero => intro i k v hk; omega
  | succ f ih =>
    intro i k v hk hcont hp hpred
    cases k with
    | zero =>
      rw [Nat.add_zero] at hp hpred
      unfold runSampler
      rw [hp]
      simp [hpred]
    | succ k =>
      have h0 := hcont 0 (Nat.succ_pos k)
      rw [Nat.add_zero] at h0
      have hx : i + (k + 1) = i + 1 + k := by omega
      rw [hx] at hp hpred
      have hrec := ih (i + 1) k v (by omega)
        (fun j hj => by
          have hy : i + 1 + j = i + (j + 1) := by omega
          rw [hy]
          exact hcont (j + 1) (by omega)) hp hpred
      unfold runSampler
      cases hq : probe i with
      | err e =>
        have hre := h0.1 e hq
        simp [hre, hrec.1, hrec.2]
      | ok w =>
        have hpw := h0.2 w hq
        simp [hpw, hrec.1, hrec.2]

/-- A sampler whose probe never produces a value the consumer accepts never
ends in the stopped outcome. -/
theorem runSampler_not_stopped {T E : Type} (retryable : E → Bool) (probe : Nat → ProbeOutcome T E) (pred : Nat → T → Bool)
    (hnever : ∀ m v, probe m = ProbeOutcome.ok v → pred m v = false) :
    ∀ fuel i w, (runSampler retryable probe pred fuel i).outcome ≠ SamplerOutcome.stopped w := by
  intro fuel
  induction fuel with
  | zero => intro i w h; exact SamplerOutcome.noConfusion h
  | succ f ih =>
    intro i w
    unfold runSampler
    cases hq : probe i with
    | err e =>
      cases hre : retryable e with
      | true => simp [hre]; exact ih (i + 1) w
      | false => simp [hre]
    | ok v =>
      have hpv := hnever i v hq
      simp [hpv]
      exact ih (i + 1) w

/-- A sampler whose probe raises the same retryable exception kind at every
iteration times out, yields nothing, and consumes its whole budget. -/
theorem runSampler_const_err {T E : Type} (retryable : E → Bool) (pred : Nat → T → Bool) (e0 : E) (hr : retryable e0 = true) :
    ∀ fuel i, runSampler retryable (fun _ => ProbeOutcome.err e0) pred fuel i =
      { outcome := SamplerOutcome.timedOut, yielded := [], probes := fuel } := by
  intro fuel
  induction fuel with
  | zero => intro i; rfl
  | succ f ih =>
    intro i
    unfold runSampler
    simp [hr, ih (i + 1)]

/-- A wait_for_status run all of whose iterations continue ends in the
timeout outcome. -/
theorem wait_for_status_timedOut_of_continues (status : PyVal) (errAt : Nat → Option PyExc) (hasItems : Nat → Bool) (vmst : Nat → VMStatus) :
    ∀ fuel i, (∀ j, j < fuel → wfsContinues status errAt hasItems vmst (i + j)) →
      VirtualMachine.wait_for_status status errAt hasItems vmst fuel i = WaitOutcome.timedOut := by
  intro fuel
  induction fuel with
  | zero => intro i _; rfl
  | succ f ih =>
    intro i h
    have h0 := h 0 (Nat.succ_pos f)
    rw [Nat.add_zero] at h0
    have hrec := ih (i + 1) (fun j hj => by
      have hx : i + 1 + j = i + (j + 1) := by omega
      rw [hx]
      exact h (j + 1) (by omega))
    unfold VirtualMachine.wait_for_status
    cases he : errAt i with
    | some e =>
      have hpe := h0.1 e he
      subst hpe
      simp [hrec]
    | none =>
      cases hit : hasItems i with
      | false => simp [hit, hrec]
      | true =>
        obtain ⟨v, hv, hne⟩ := h0.2 he hit
        simp [hit, hv, hne, hrec]

/-- A wait_for_status run whose first k iterations continue and whose
iteration i + k sees a nonempty sample with a fresh ready() equal to the
awaited status returns at that iteration. -/
theorem wait_for_status_returned_of_first (status : PyVal) (errAt : Nat → Option PyExc) (hasItems : Nat → Bool) (vmst : Nat → VMStatus) :
    ∀ fuel i k, k < fuel → (∀ j, j < k → wfsContinues status errAt hasItems vmst (i + j)) →
      errAt (i + k) = none → hasItems (i + k) = true →
      VirtualMachine.ready (vmst (i + k)) = Except.ok status →
      VirtualMachine.wait_for_status status errAt hasItems vmst fuel i = WaitOutcome.returned (i + k) := by
  intro fuel
  induction fuel with
  | zero => intro i k hk; omega
  | succ f ih =>
    intro i k hk hcont herr hit hready
    cases k with
    | zero =>
      rw [Nat.add_zero] at herr hit hready ⊢
      unfold VirtualMachine.wait_for_status
      rw [herr]
      simp [hit, hready]
    | succ k =>
      have h0 := hcont 0 (Nat.succ_pos k)
      rw [Nat.add_zero] at h0
      have hx : i + (k + 1) = i + 1 + k := by omega
      rw [hx] at herr hit hready ⊢
      have hrec := ih (i + 1) k (by omega)
        (fun j hj => by
          have hy : i + 1 + j = i + (j + 1) := by omega
          rw [hy]
          exact hcont (j + 1) (by omega)) herr hit hready
      unfold VirtualMachine.wait_for_status
      cases he : errAt i with
      | some e =>
        have hpe := h0.1 e he
        subst hpe
        simp [hrec]
      | none =>
        cases hi : hasItems i with
        | false => simp [hi, hrec]
        | true =>
          obtain ⟨v, hv, hne⟩ := h0.2 he hi
          simp [hi, hv, hne, hrec]

/-- A wait_for_status whose probe raises ProtocolError at every iteration
times out. -/
theorem wait_for_status_all_protocol (status : PyVal) (errAt : Nat → Option PyExc) (hasItems : Nat → Bool) (vmst : Nat → VMStatus)
    (hall : ∀ j, errAt j = some PyExc.protocolError) :
    ∀ fuel i, VirtualMachine.wait_for_status status errAt hasItems vmst fuel i = WaitOutcome.timedOut := by
  intro fuel
  induction fuel with
  | zero => intro i; rfl
  | succ f ih =>
    intro i
    unfold VirtualMachine.wait_for_status
    rw [hall i]
    simp [ih (i + 1)]

/-- The pause loop absorbs k leading ProtocolError samples: it behaves as
the same loop started k iterations later with the budget reduced by k. -/
theorem pause_skip_retryable (pause : Bool) (errAt : Nat → Option PyExc) (reasonAt : Nat → Option String) :
    ∀ k fuel i, k ≤ fuel → (∀ j, j < k → errAt (i + j) = some PyExc.protocolError) →
      wait_for_vmi_condition_pause_status pause errAt reasonAt fuel i =
      wait_for_vmi_condition_pause_status pause errAt reasonAt (fuel - k) (i + k) := by
  intro k
  induction k with
  | zero => intro fuel i _ _; simp
  | succ k ih =>
    intro fuel i hk h
    cases fuel with
    | zero => omega
    | succ f =>
      have h0 := h 0 (Nat.succ_pos k)
      rw [Nat.add_zero] at h0
      have hstep : wait_for_vmi_condition_pause_status pause errAt reasonAt (f + 1) i =
          wait_for_vmi_condition_pause_status pause errAt reasonAt f (i + 1) := by
        conv_lhs => unfold wait_for_vmi_condition_pause_status
        rw [h0]
        simp
      rw [hstep]
      have hrec := ih f (i + 1) (by omega) (fun j hj => by
        have hy : i + 1 + j = i + (j + 1) := by omega
        rw [hy]
        exact h (j + 1) (by omega))
      rw [hrec]
      have e1 : f - k = f + 1 - (k + 1) := by omega
      have e2 : i + 1 + k = i + (k + 1) := by omega
      rw [e1, e2]

/-- Claim C1, counterexample to the claim as stated: with pause=True and a
sampled active condition lacking the "reason" key, the loop does not
return; the short-circuited dict lookup sample["reason"] of the first check
raises KeyError, which propagates out of the wait. -/
theorem C1_missing_reason_counterexample :
    wait_for_vmi_condition_pause_status true (fun _ => none) (fun _ => none) 3 0 = PauseOutcome.raised PyExc.keyError ∧
    (wait_for_vmi_condition_pause_status true (fun _ => none) (fun _ => none) 3 0).didReturn = false := by
  exact ⟨by decide, by decide⟩

/-- Claim C1 (amended): for pause=False the loop returns on the first
successfully sampled active condition regardless of its reason; for
pause=True it also returns when the condition has a present but falsy
(empty) "reason" value even though that reason is not "PausedByUser"; when
the "reason" key is absent altogether the pause=True branch instead raises
KeyError from the lookup sample["reason"]. -/
theorem C1_pause_unpause_predicate :
    (∀ (errAt : Nat → Option PyExc) (reasonAt : Nat → Option String) (fuel k : Nat),
      k < fuel → (∀ j, j < k → errAt j = some PyExc.protocolError) → errAt k = none →
      wait_for_vmi_condition_pause_status false errAt reasonAt fuel 0 = PauseOutcome.returned k) ∧
    (∀ (errAt : Nat → Option PyExc) (reasonAt : Nat → Option String) (fuel k : Nat),
      k < fuel → (∀ j, j < k → errAt j = some PyExc.protocolError) → errAt k = none →
      reasonAt k = some "" →
      wait_for_vmi_condition_pause_status true errAt reasonAt fuel 0 = PauseOutcome.returned k) ∧
    (∀ (errAt : Nat → Option PyExc) (reasonAt : Nat → Option String) (fuel k : Nat),
      k < fuel → (∀ j, j < k → errAt j = some PyExc.protocolError) → errAt k = none →
      reasonAt k = none →
      wait_for_vmi_condition_pause_status true errAt reasonAt fuel 0 = PauseOutcome.raised PyExc.keyError) := by
  refine ⟨?_, ?_, ?_⟩
  · intro errAt reasonAt fuel k hk hskip herr
    have hs := pause_skip_retryable false errAt reasonAt k fuel 0 (Nat.le_of_lt hk)
      (fun j hj => by rw [Nat.zero_add]; exact hskip j hj)
    rw [Nat.zero_add] at hs
    obtain ⟨m, hm⟩ : ∃ m, fuel - k = m + 1 := ⟨fuel - k - 1, by omega⟩
    rw [hm] at hs
    rw [hs]
    conv_lhs => unfold wait_for_vmi_condition_pause_status
    rw [herr]
    simp [pauseFirstCheck]
  · intro errAt reasonAt fuel k hk hskip herr hreason
    have hs := pause_skip_retryable true errAt reasonAt k fuel 0 (Nat.le_of_lt hk)
      (fun j hj => by rw [Nat.zero_add]; exact hskip j hj)
    rw [Nat.zero_add] at hs
    obtain ⟨m, hm⟩ : ∃ m, fuel - k = m + 1 := ⟨fuel - k - 1, by omega⟩
    rw [hm] at hs
    rw [hs]
    conv_lhs => unfold wait_for_vmi_condition_pause_status
    rw [herr]
    simp [pauseFirstCheck, hreason, reasonTruthy]
  · intro errAt reasonAt fuel k hk hskip herr hreason
    have hs := pause_skip_retryable true errAt reasonAt k fuel 0 (Nat.le_of_lt hk)
      (fun j hj => by rw [Nat.zero_add]; exact hskip j hj)
    rw [Nat.zero_add] at hs
    obtain ⟨m, hm⟩ : ∃ m, fuel - k = m + 1 := ⟨fuel - k - 1, by omega⟩
    rw [hm] at hs
    rw [hs]
    conv_lhs => unfold wait_for_vmi_condition_pause_status
    rw [herr]
    simp [pauseFirstCheck, hreason]

/-- Claim C1, witness: the amended statement evaluated at concrete inputs,
one instance per branch. -/
theorem C1_pause_unpause_predicate_witness :
    wait_for_vmi_condition_pause_status false (fun _ => none) (fun _ => some "PausedByUser") 3 0 = PauseOutcome.returned 0 ∧
    wait_for_vmi_condition_pause_status true (fun j => if j = 0 then some PyExc.protocolError else none) (fun _ => some "") 3 0 = PauseOutcome.returned 1 ∧
    wait_for_vmi_condition_pause_status true (fun _ => none) (fun _ => none) 4 0 = PauseOutcome.raised PyExc.keyError := by
  refine ⟨?_, ?_, ?_⟩
  · exact C1_pause_unpause_predicate.1 (fun _ => none) (fun _ => some "PausedByUser") 3 0
      (by decide) (fun j hj => absurd hj (Nat.not_lt_zero j)) rfl
  · exact C1_pause_unpause_predicate.2.1 (fun j => if j = 0 then some PyExc.protocolError else none)
      (fun _ => some "") 3 1 (by decide)
      (fun j hj => by
        have hj0 : j = 0 := by omega
        subst hj0
        rfl) rfl rfl
  · exact C1_pause_unpause_predicate.2.2 (fun _ => none) (fun _ => none)
      4 0 (by decide)
      (fun j hj => absurd hj (Nat.not_lt_zero j)) rfl rfl

/-- Claim C2: a VirtualMachine.wait_for_status run whose probe raises the
declared-retryable ProtocolError on every call ends in TimeoutExpiredError,
never propagating the retryable error; and the underlying sampler with
retryable set \x7bProtocolError\x7d on an always-ProtocolError probe yields no
value to the consumer while consuming its whole iteration budget. -/
theorem C2_retryable_absorbed :
    (∀ (status : PyVal) (errAt : Nat → Option PyExc) (hasItems : Nat → Bool) (vmst : Nat → VMStatus) (fuel : Nat),
      (∀ i, errAt i = some PyExc.protocolError) →
      VirtualMachine.wait_for_status status errAt hasItems vmst fuel 0 = WaitOutcome.timedOut) ∧
    (∀ (pred : Nat → Bool → Bool) (fuel i : Nat),
      runSampler (fun e => e == PyExc.protocolError) (fun _ => ProbeOutcome.err PyExc.protocolError) pred fuel i =
        { outcome := SamplerOutcome.timedOut, yielded := [], probes := fuel }) := by
  constructor
  · intro status errAt hasItems vmst fuel hall
    exact wait_for_status_all_protocol status errAt hasItems vmst hall fuel 0
  · intro pred fuel i
    exact runSampler_const_err (fun e => e == PyExc.protocolError) pred PyExc.protocolError (by decide) fuel i

/-- Claim C2, witness: the statement evaluated at concrete inputs. -/
theorem C2_retryable_absorbed_witness :
    VirtualMachine.wait_for_status PyVal.vNone (fun _ => some PyExc.protocolError) (fun _ => true) (fun _ => ⟨true, some PyVal.vNone⟩) 3 0 = WaitOutcome.timedOut ∧
    runSampler (fun e => e == PyExc.protocolError) (fun _ => ProbeOutcome.err PyExc.protocolError) (fun _ b => b) 3 0 =
      { outcome := SamplerOutcome.timedOut, yielded := [], probes := 3 } := by
  constructor
  · exact C2_retryable_absorbed.1 PyVal.vNone (fun _ => some PyExc.protocolError) (fun _ => true)
      (fun _ => ⟨true, some PyVal.vNone⟩) 3 (fun i => rfl)
  · exact C2_retryable_absorbed.2 (fun _ b => b) 3 0

/-- Claim C3, counterexample to the claim as stated: a two-iteration run in
which the cluster ready count changes right after the deadline.  The loop
observed the sample (some 1) twice; the value interpolated into the log
line is the freshly re-fetched (some 5), not the last observed sample. -/
theorem C3_fresh_log_counterexample :
    wait_for_replicas (E := PyExc) (fun _ => none) (fun i => if i < 2 then some 1 else some 5) (fun _ => some 3) 2 =
      WFRResult.failed (some 5) (some 3) ∧
    (runSampler (fun _ => false) (wfrProbe (E := PyExc) (fun _ => none) (fun i => if i < 2 then some 1 else some 5)) (wfrPred (fun _ => some 3)) 2 0).yielded = [some 1, some 1] ∧
    WFRResult.failed (E := PyExc) (some 5) (some 3) ≠ WFRResult.failed (some 1) (some 3) := by
  exact ⟨by decide, by decide, by decide⟩

/-- Claim C3 (amended): for every execution in which the sampling loop
raises TimeoutExpiredError, MachineSet.wait_for_replicas catches it, logs
freshly re-fetched ready and desired replica counts (the cluster state
after the loop, not necessarily the last observed sample), and returns
False to its caller; the timeout error never escapes wait_for_replicas. -/
theorem C3_timeout_returns_false :
    ∀ (errAt : Nat → Option PyExc) (ready desired : Nat → Option Nat) (fuel : Nat),
      (∀ j, j < fuel → errAt j = none ∧ wfrPred desired j (ready j) = false) →
      wait_for_replicas errAt ready desired fuel = WFRResult.failed (ready fuel) (desired fuel) := by
  intro errAt ready desired fuel h
  have ho := runSampler_timedOut_of_continues (fun _ => false) (wfrProbe errAt ready) (wfrPred desired) fuel 0
    (fun j hj => by
      rw [Nat.zero_add]
      obtain ⟨h1, h2⟩ := h j hj
      constructor
      · intro e hpe
        simp [wfrProbe, h1] at hpe
      · intro v hpv
        simp only [wfrProbe, h1] at hpv
        injection hpv with hv
        rw [← hv]
        exact h2)
  simp only [wait_for_replicas]
  rw [ho]

/-- Claim C3, witness: the amended statement evaluated at a concrete
input. -/
theorem C3_timeout_returns_false_witness :
    wait_for_replicas (E := PyExc) (fun _ => none) (fun _ => some 0) (fun _ => some 3) 2 = WFRResult.failed (some 0) (some 3) := by
  exact C3_timeout_returns_false (fun _ => none) (fun _ => some 0) (fun _ => some 3) 2
    (fun j hj => ⟨rfl, rfl⟩)

/-- Claim C4: a sampler declaring no retryable error kinds propagates a
probe error verbatim on the iteration where it occurs, with zero values
yielded and a single probe invocation; in particular
MachineSet.wait_for_replicas, which declares no retryable errors, aborts on
the first probe error and surfaces that exact error. -/
theorem C4_nonretryable_propagates :
    (∀ (T : Type) (probe : Nat → ProbeOutcome T PyExc) (pred : Nat → T → Bool) (fuel i : Nat) (e : PyExc),
      probe i = ProbeOutcome.err e →
      runSampler (fun _ => false) probe pred (fuel + 1) i =
        { outcome := SamplerOutcome.raised e, yielded := [], probes := 1 }) ∧
    (∀ (errAt : Nat → Option PyExc) (ready desired : Nat → Option Nat) (fuel : Nat) (e : PyExc),
      errAt 0 = some e →
      wait_for_replicas errAt ready desired (fuel + 1) = WFRResult.raised e) := by
  constructor
  · intro T probe pred fuel i e hp
    unfold runSampler
    rw [hp]
    simp
  · intro errAt ready desired fuel e he
    simp only [wait_for_replicas]
    conv_lhs => rw [runSampler]
    simp [wfrProbe, he]

/-- Claim C4, witness: the statement evaluated at concrete inputs. -/
theorem C4_nonretryable_propagates_witness :
    runSampler (fun _ => false) (fun _ => ProbeOutcome.err (T := Bool) PyExc.keyError) (fun _ b => b) 3 0 =
      { outcome := SamplerOutcome.raised PyExc.keyError, yielded := [], probes := 1 } ∧
    wait_for_replicas (fun _ => some PyExc.keyError) (fun _ => some 1) (fun _ => some 1) 3 = WFRResult.raised PyExc.keyError := by
  constructor
  · exact C4_nonretryable_propagates.1 Bool (fun _ => ProbeOutcome.err PyExc.keyError) (fun _ b => b) 2 0 PyExc.keyError rfl
  · exact C4_nonretryable_propagates.2 (fun _ => some PyExc.keyError) (fun _ => some 1) (fun _ => some 1) 2 PyExc.keyError rfl

/-- Claim C5: MachineSet.wait_for_replicas returns True at the first
sampled value that is truthy and equal to the freshly fetched desired
count, having invoked the probe exactly once per sample up to and
including that one; and when no sampled value ever satisfies the check the
method never returns True. -/
theorem C5_first_match_stops :
    (∀ (errAt : Nat → Option PyExc) (ready desired : Nat → Option Nat) (fuel i : Nat),
      (∀ j, errAt j = none) → i < fuel →
      (∀ j, j < i → wfrPred desired j (ready j) = false) →
      wfrPred desired i (ready i) = true →
      wait_for_replicas errAt ready desired fuel = WFRResult.ok ∧
      (runSampler (fun _ => false) (wfrProbe errAt ready) (wfrPred desired) fuel 0).probes = i + 1) ∧
    (∀ (errAt : Nat → Option PyExc) (ready desired : Nat → Option Nat) (fuel : Nat),
      (∀ j v, wfrProbe errAt ready j = ProbeOutcome.ok v → wfrPred desired j v = false) →
      wait_for_replicas errAt ready desired fuel ≠ WFRResult.ok) := by
  constructor
  · intro errAt ready desired fuel i hnone hi hbefore hhit
    have hstep := runSampler_stopped_of_first (fun _ => false) (wfrProbe errAt ready) (wfrPred desired)
      fuel 0 i (ready i) hi
      (fun j hj => by
        rw [Nat.zero_add]
        constructor
        · intro e hpe
          simp [wfrProbe, hnone j] at hpe
        · intro v hpv
          simp only [wfrProbe, hnone j] at hpv
          injection hpv with hv
          rw [← hv]
          exact hbefore j hj)
      (by rw [Nat.zero_add]; simp only [wfrProbe, hnone i])
      (by rw [Nat.zero_add]; exact hhit)
    constructor
    · simp only [wait_for_replicas]
      rw [hstep.1]
    · exact hstep.2
  · intro errAt ready desired fuel hnever
    have hns := runSampler_not_stopped (fun _ => false) (wfrProbe errAt ready) (wfrPred desired) hnever fuel 0
    simp only [wait_for_replicas]
    cases ho : (runSampler (fun _ => false) (wfrProbe errAt ready) (wfrPred desired) fuel 0).outcome with
    | stopped w => exact absurd ho (hns w)
    | timedOut => simp
    | raised e => simp

/-- Claim C5, witness: the statement evaluated at concrete inputs, one
instance per conjunct. -/
theorem C5_first_match_stops_witness :
    (wait_for_replicas (E := PyExc) (fun _ => none) (fun i => if i = 0 then some 1 else some 2) (fun _ => some 2) 3 = WFRResult.ok ∧
      (runSampler (fun _ => false) (wfrProbe (E := PyExc) (fun _ => none) (fun i => if i = 0 then some 1 else some 2)) (wfrPred (fun _ => some 2)) 3 0).probes = 2) ∧
    wait_for_replicas (E := PyExc) (fun _ => none) (fun _ => some 0) (fun _ => some 2) 3 ≠ WFRResult.ok := by
  constructor
  · exact C5_first_match_stops.1 (fun _ => none) (fun i => if i = 0 then some 1 else some 2) (fun _ => some 2) 3 1
      (fun j => rfl) (by decide)
      (fun j hj => by
        have hj0 : j = 0 := by omega
        subst hj0
        decide) (by decide)
  · exact C5_first_match_stops.2 (fun _ => none) (fun _ => some 0) (fun _ => some 2) 3
      (fun j v h => by
        simp only [wfrProbe] at h
        injection h with hv
        rw [← hv]
        rfl)

/-- Claim C6: VirtualMachine.wait_for_status raises TimeoutExpiredError
exactly when the deadline elapses without the awaited condition being
observed — every iteration within the budget either hit a retryable error,
an empty sample, or a fresh ready() different from the requested status —
and returns normally at the first iteration whose nonempty sample sees
ready() equal to the requested status; the two endings are distinct
outcomes. -/
theorem C6_timeout_iff_never_ready :
    (∀ (status : PyVal) (errAt : Nat → Option PyExc) (hasItems : Nat → Bool) (vmst : Nat → VMStatus) (fuel : Nat),
      (∀ j, j < fuel → wfsContinues status errAt hasItems vmst j) →
      VirtualMachine.wait_for_status status errAt hasItems vmst fuel 0 = WaitOutcome.timedOut) ∧
    (∀ (status : PyVal) (errAt : Nat → Option PyExc) (hasItems : Nat → Bool) (vmst : Nat → VMStatus) (fuel k : Nat),
      k < fuel → (∀ j, j < k → wfsContinues status errAt hasItems vmst j) →
      errAt k = none → hasItems k = true →
      VirtualMachine.ready (vmst k) = Except.ok status →
      VirtualMachine.wait_for_status status errAt hasItems vmst fuel 0 = WaitOutcome.returned k) := by
  constructor
  · intro status errAt hasItems vmst fuel h
    exact wait_for_status_timedOut_of_continues status errAt hasItems vmst fuel 0
      (fun j hj => by rw [Nat.zero_add]; exact h j hj)
  · intro status errAt hasItems vmst fuel k hk hcont herr hit hready
    have := wait_for_status_returned_of_first status errAt hasItems vmst fuel 0 k hk
      (fun j hj => by rw [Nat.zero_add]; exact hcont j hj)
      (by rw [Nat.zero_add]; exact herr) (by rw [Nat.zero_add]; exact hit)
      (by rw [Nat.zero_add]; exact hready)
    rw [Nat.zero_add] at this
    exact this

/-- Claim C6, witness: the statement evaluated at concrete inputs, one
instance per conjunct. -/
theorem C6_timeout_iff_never_ready_witness :
    VirtualMachine.wait_for_status (PyVal.vBool true) (fun _ => none) (fun _ => false) (fun _ => ⟨true, some (PyVal.vBool true)⟩) 2 0 = WaitOutcome.timedOut ∧
    VirtualMachine.wait_for_status (PyVal.vBool true) (fun _ => none) (fun _ => true) (fun i => if i = 0 then ⟨true, some (PyVal.vBool false)⟩ else ⟨true, some (PyVal.vBool true)⟩) 3 0 = WaitOutcome.returned 1 := by
  constructor
  · exact C6_timeout_iff_never_ready.1 (PyVal.vBool true) (fun _ => none) (fun _ => false)
      (fun _ => ⟨true, some (PyVal.vBool true)⟩) 2
      (fun j hj => ⟨fun e he => by exact Option.noConfusion he, fun _ hit => Bool.noConfusion hit⟩)
  · exact C6_timeout_iff_never_ready.2 (PyVal.vBool true) (fun _ => none) (fun _ => true)
      (fun i => if i = 0 then ⟨true, some (PyVal.vBool false)⟩ else ⟨true, some (PyVal.vBool true)⟩) 3 1
      (by decide)
      (fun j hj => by
        have hj0 : j = 0 := by omega
        subst hj0
        exact ⟨fun e he => by exact Option.noConfusion he,
          fun _ _ => ⟨PyVal.vBool false, rfl, by decide⟩⟩) rfl rfl rfl

/-- Claim C7: each wait creates its sampler locally and mutates no field of
the wrapping resource object: the state-passing forms of
MachineSet.wait_for_replicas and VirtualMachine.wait_for_status return the
object unchanged, and a second wait after a first one behaves exactly as a
wait on the original object — no state is shared between waits. -/
theorem C7_wait_frame :
    ∀ (ms : MachineSetObj) (vm : VirtualMachineObj) (status : PyVal)
      (errAt errAt2 : Nat → Option PyExc) (ready desired : Nat → Option Nat)
      (hasItems : Nat → Bool) (vmst : Nat → VMStatus) (fuel fuel2 : Nat),
      (MachineSet.wait_for_replicas_st ms errAt ready desired fuel).2 = ms ∧
      (VirtualMachine.wait_for_status_st vm status errAt2 hasItems vmst fuel2).2 = vm ∧
      MachineSet.wait_for_replicas_st (MachineSet.wait_for_replicas_st ms errAt ready desired fuel).2 errAt ready desired fuel =
        MachineSet.wait_for_replicas_st ms errAt ready desired fuel ∧
      VirtualMachine.wait_for_status_st (VirtualMachine.wait_for_status_st vm status errAt2 hasItems vmst fuel2).2 status errAt2 hasItems vmst fuel2 =
        VirtualMachine.wait_for_status_st vm status errAt2 hasItems vmst fuel2 := by
  intro ms vm status errAt errAt2 ready desired hasItems vmst fuel fuel2
  exact ⟨rfl, rfl, rfl, rfl⟩

/-- Claim C8: VirtualMachine.ready() returns None whenever the fetched
instance has a falsy status, so the wait performed by stop(wait=True) —
wait_for_status with status=None — accepts a VM whose status is merely
absent: a nonempty sample whose VM lacks any status makes the stop wait
return on that first sample. -/
theorem C8_ready_none_stop :
    (∀ st : VMStatus, st.present = false → VirtualMachine.ready st = Except.ok PyVal.vNone) ∧
    (∀ (errAt : Nat → Option PyExc) (hasItems : Nat → Bool) (vmst : Nat → VMStatus) (fuel : Nat),
      errAt 0 = none → hasItems 0 = true → (vmst 0).present = false →
      VirtualMachine.stop_wait errAt hasItems vmst (fuel + 1) = WaitOutcome.returned 0) := by
  constructor
  · intro st h
    simp [VirtualMachine.ready, h]
  · intro errAt hasItems vmst fuel h1 h2 h3
    unfold VirtualMachine.stop_wait
    conv_lhs => unfold VirtualMachine.wait_for_status
    rw [h1]
    simp [h2, VirtualMachine.ready, h3]

/-- Claim C8, witness: the statement evaluated at concrete inputs. -/
theorem C8_ready_none_stop_witness :
    VirtualMachine.ready ⟨false, none⟩ = Except.ok PyVal.vNone ∧
    VirtualMachine.stop_wait (fun _ => none) (fun _ => true) (fun _ => ⟨false, none⟩) 3 = WaitOutcome.returned 0 := by
  constructor
  · exact C8_ready_none_stop.1 ⟨false, none⟩ rfl
  · exact C8_ready_none_stop.2 (fun _ => none) (fun _ => true) (fun _ => ⟨false, none⟩) 2 rfl rfl rfl

/-- Claim C9: virt_launcher_pod raises ResourceNotFoundError only on the
migration branch — when migrationState is set and no listed pod name equals
targetPod; when migrationState is absent it returns the first pod of the
list without an emptiness check, so an empty list makes that branch fail
with IndexError rather than ResourceNotFoundError. -/
theorem C9_virt_launcher_pod_branches :
    (∀ (target : String) (pods : List String), (∀ p ∈ pods, target ≠ p) →
      virt_launcher_pod (some target) pods = PodResult.resourceNotFoundError) ∧
    virt_launcher_pod none [] = PodResult.indexError ∧
    (∀ (p : String) (rest : List String), virt_launcher_pod none (p :: rest) = PodResult.found p) := by
  refine ⟨?_, rfl, fun p rest => rfl⟩
  intro target pods h
  have hf : pods.find? (fun p => target == p) = none := by
    rw [List.find?_eq_none]
    intro x hx
    simpa using h x hx
  simp [virt_launcher_pod, hf]

/-- Claim C9, witness: the statement evaluated at a concrete input. -/
theorem C9_virt_launcher_pod_branches_witness :
    virt_launcher_pod (some "tgt") ["a", "b"] = PodResult.resourceNotFoundError := by
  exact C9_virt_launcher_pod_branches.1 "tgt" ["a", "b"] (by decide)

/-- The list comprehension of interface_ip followed by the subscript is the
head of the mapped filter. -/
theorem interface_ip_eq_head (ifaces : List Iface) (interface : String) :
    interface_ip ifaces interface =
      ((ifaces.filter (fun ifc => ifc.interfaceName == interface)).map Iface.ipAddress).head? := by
  unfold interface_ip
  cases (ifaces.filter (fun ifc => ifc.interfaceName == interface)).map Iface.ipAddress with
  | nil => rfl
  | cons x xs => rfl

/-- Claim C10: interface_ip returns the ipAddress of the first listed
interface whose interfaceName equals the argument, and returns None rather
than raising when no listed interface matches. -/
theorem C10_interface_ip_first_match :
    (∀ (ifaces : List Iface) (interface : String),
      (∀ ifc ∈ ifaces, ifc.interfaceName ≠ interface) →
      interface_ip ifaces interface = none) ∧
    (∀ (pre post : List Iface) (ifc : Iface) (interface : String),
      (∀ j ∈ pre, j.interfaceName ≠ interface) → ifc.interfaceName = interface →
      interface_ip (pre ++ ifc :: post) interface = some ifc.ipAddress) := by
  constructor
  · intro ifaces interface h
    have hf : ifaces.filter (fun ifc => ifc.interfaceName == interface) = [] := by
      rw [List.filter_eq_nil_iff]
      intro a ha
      simpa using h a ha
    rw [interface_ip_eq_head, hf]
    rfl
  · intro pre post ifc interface hpre hifc
    have hf : pre.filter (fun j => j.interfaceName == interface) = [] := by
      rw [List.filter_eq_nil_iff]
      intro a ha
      simpa using hpre a ha
    rw [interface_ip_eq_head, List.filter_append, hf, List.nil_append,
      List.filter_cons_of_pos]
    · rfl
    · simpa using hifc

/-- Claim C10, witness: the statement evaluated at concrete inputs, one
instance per conjunct. -/
theorem C10_interface_ip_first_match_witness :
    interface_ip [⟨"eth0", "1.1.1.1"⟩] "eth9" = none ∧
    interface_ip ([⟨"eth1", "2.2.2.2"⟩] ++ ⟨"eth0", "3.3.3.3"⟩ :: [⟨"eth0", "9.9.9.9"⟩]) "eth0" = some "3.3.3.3" := by
  constructor
  · exact C10_interface_ip_first_match.1 [⟨"eth0", "1.1.1.1"⟩] "eth9" (by decide)
  · exact C10_interface_ip_first_match.2 [⟨"eth1", "2.2.2.2"⟩] [⟨"eth0", "9.9.9.9"⟩] ⟨"eth0", "3.3.3.3"⟩ "eth0"
      (by decide) rfl

end OpenshiftWrapper
